import Mathlib

/-!
Shallow embedding of the chunk codec in `src/chunk.rs` (pngme).

Bytes are modelled as `Nat` (values of actual byte buffers are `< 256`);
`u32` values are `Nat` taken modulo `2 ^ 32` where Rust truncates.
Fallible Rust code (`TryFrom`, `String::from_utf8`) is modelled with
`Except`.  The CRC-32 collaborator (the `crc` crate with algorithm
`CRC_32_ISO_HDLC`) is modelled by the standard bit-reflected CRC-32:
initial value `0xFFFFFFFF`, reflected polynomial `0xEDB88320`, final
xor `0xFFFFFFFF`, bytes processed least-significant bit first.
-/

set_option maxRecDepth 100000

namespace Pngme

/-- Reflected generator polynomial of CRC-32/ISO-HDLC. -/
def crcPoly : Nat := 0xEDB88320

/-- One bit step of the reflected CRC-32: shift right, conditionally
xor the reflected polynomial (the `crc` crate's table is built from
exactly this recurrence). -/
def crcBit (c : Nat) : Nat :=
  if c % 2 = 1 then (c / 2) ^^^ crcPoly else c / 2

/-- Absorb one input byte into the running CRC state: xor the byte into
the low bits, then perform eight bit steps. -/
def crcByte (c b : Nat) : Nat :=
  crcBit^[8] (c ^^^ b)

/-- CRC-32/ISO-HDLC of a byte sequence, i.e.
`crc::Crc::<u32>::new(&crc::CRC_32_ISO_HDLC).checksum(data)`. -/
def crc32 (data : List Nat) : Nat :=
  (data.foldl crcByte 0xFFFFFFFF) ^^^ 0xFFFFFFFF

/-- Big-endian `u32` from a 4-byte sequence (`u32::from_be_bytes`). -/
def u32FromBeBytes (bs : List Nat) : Nat :=
  bs.foldl (fun acc b => acc * 256 + b) 0

/-- The four big-endian bytes of a `u32` (`u32::to_be_bytes`). -/
def u32BeBytes (n : Nat) : List Nat :=
  [n / 16777216 % 256, n / 65536 % 256, n / 256 % 256, n % 256]

/-- The `ChunkType` collaborator (`src/chunk_type.rs`, not part of the
core under verification): a tuple struct over the raw 4 tag bytes, as
witnessed by the direct construction `ChunkType(chunk_type)` in
`Chunk::try_from`. -/
structure ChunkType where
  tag : List Nat
deriving DecidableEq, Repr

/-- Raw 4-byte representation, `ChunkType::bytes()`.  Modelled from
the spec: the collaborator "must expose its raw 4-byte representation";
for the tuple struct this is its single field. -/
def ChunkType.bytes (t : ChunkType) : List Nat := t.tag

/-- Modelled from the spec: the tag-legality validator owned by the
`ChunkType` collaborator (`src/chunk_type.rs`, absent from `src/`) — a
4-byte ASCII tag whose bytes must be ASCII letters (the case-bit
legality rules live on the letter case of each byte). -/
def isValidTag (bs : List Nat) : Bool :=
  bs.length = 4 && bs.all (fun b => (65 ≤ b && b ≤ 90) || (97 ≤ b && b ≤ 122))

/-- The `Chunk` struct of `src/chunk.rs`. -/
structure Chunk where
  chunk_crc : Nat
  chunk_type : ChunkType
  chunk_data : List Nat
  length : Nat
deriving DecidableEq, Repr

/-- Rust `Chunk::new`: concatenate the type bytes and the data, checksum the
concatenation, store the data length (`data.len() as u32`, hence the
`% 2 ^ 32`). -/
def Chunk.new (chunk_type : ChunkType) (data : List Nat) : Chunk :=
  { chunk_crc := crc32 (chunk_type.bytes ++ data)
    chunk_type := chunk_type
    chunk_data := data
    length := data.length % 4294967296 }

/-- Failure marker of `String::from_utf8` (Rust `FromUtf8Error`). -/
inductive FromUtf8Error
  | invalid
deriving DecidableEq, Repr

/-- Is `b` a UTF-8 continuation byte (`0x80 ..= 0xBF`)? -/
def isCont (b : Nat) : Bool := 128 ≤ b && b ≤ 191

/-- UTF-8 validity of a byte sequence, as checked by Rust's
`String::from_utf8` (an external standard-library collaborator): ASCII
bytes stand alone; `0xC2..=0xDF` start 2-byte sequences; 3- and 4-byte
sequences restrict their first continuation byte to exclude overlong
encodings (`0xE0`, `0xF0`), surrogates (`0xED`) and code points above
`0x10FFFF` (`0xF4`). -/
def validUtf8 : List Nat → Bool
  | [] => true
  | b :: rest =>
    if b ≤ 127 then validUtf8 rest
    else if 194 ≤ b && b ≤ 223 then
      match rest with
      | b1 :: rest1 => isCont b1 && validUtf8 rest1
      | [] => false
    else if b = 224 then
      match rest with
      | b1 :: b2 :: rest2 => (160 ≤ b1 && b1 ≤ 191) && isCont b2 && validUtf8 rest2
      | _ => false
    else if (225 ≤ b && b ≤ 236) || b = 238 || b = 239 then
      match rest with
      | b1 :: b2 :: rest2 => isCont b1 && isCont b2 && validUtf8 rest2
      | _ => false
    else if b = 237 then
      match rest with
      | b1 :: b2 :: rest2 => (128 ≤ b1 && b1 ≤ 159) && isCont b2 && validUtf8 rest2
      | _ => false
    else if b = 240 then
      match rest with
      | b1 :: b2 :: b3 :: rest3 =>
          (144 ≤ b1 && b1 ≤ 191) && isCont b2 && isCont b3 && validUtf8 rest3
      | _ => false
    else if 241 ≤ b && b ≤ 243 then
      match rest with
      | b1 :: b2 :: b3 :: rest3 => isCont b1 && isCont b2 && isCont b3 && validUtf8 rest3
      | _ => false
    else if b = 244 then
      match rest with
      | b1 :: b2 :: b3 :: rest3 =>
          (128 ≤ b1 && b1 ≤ 143) && isCont b2 && isCont b3 && validUtf8 rest3
      | _ => false
    else false

/-- Rust `Chunk::data_as_string`, i.e. `String::from_utf8(self.chunk_data)`.
A Rust `String` is represented by its UTF-8 bytes, which
`String::from_utf8` returns unchanged on success. -/
def Chunk.data_as_string (c : Chunk) : Except FromUtf8Error (List Nat) :=
  if validUtf8 c.chunk_data then Except.ok c.chunk_data
  else Except.error FromUtf8Error.invalid

/-- Failure outcomes of `Chunk::try_from`, one per `Err` string in the
source, plus the arithmetic-overflow panic of the unchecked
`value.len() - 12` (debug-build `usize` subtraction underflow reached
whenever `8 ≤ value.len() < 12`). -/
inductive ParseError
  | lengthErr
  | chunkTypeErr
  | panicSubUnderflow
  | crcErr
  | crcMismatch
deriving DecidableEq, Repr

/-- Rust `TryFrom<&Vec<u8>> for Chunk`: take the first 4 bytes as the
declared length, the next 4 as the tag, bytes `8 .. len - 4` as the
payload (`skip(8).take(value.len() - 12)`), the last 4 as the trailer
CRC; recompute the CRC over tag ++ payload and compare with the
big-endian trailer.  Each `try_into` failure is an error branch; the
`value.len() - 12` of the payload slice underflows (panics) when the
buffer has 8 to 11 bytes, checked here before the slice is formed. -/
def parse (value : List Nat) : Except ParseError Chunk :=
  if (value.take 4).length ≠ 4 then Except.error ParseError.lengthErr
  else if ((value.drop 4).take 4).length ≠ 4 then Except.error ParseError.chunkTypeErr
  else if value.length < 12 then Except.error ParseError.panicSubUnderflow
  else
    let message := (value.drop 8).take (value.length - 12)
    let crcBytes := (value.drop (value.length - 4)).take 4
    if crcBytes.length ≠ 4 then Except.error ParseError.crcErr
    else
      let crc := crc32 ((value.drop 4).take 4 ++ message)
      if crc = u32FromBeBytes crcBytes then
        Except.ok
          { chunk_crc := crc
            chunk_type := ChunkType.mk ((value.drop 4).take 4)
            chunk_data := message
            length := u32FromBeBytes (value.take 4) }
      else Except.error ParseError.crcMismatch

/-- Modelled from the spec: the serialization collaborator producing
the 12+N-byte layout from a Chunk — 4-byte big-endian length, the 4 tag
bytes, the payload, 4-byte big-endian CRC (the exact layout the test
fixtures of `src/chunk.rs` build by chaining
`to_be_bytes ++ tag ++ message ++ to_be_bytes`). -/
def Chunk.serialize (c : Chunk) : List Nat :=
  u32BeBytes c.length ++ c.chunk_type.tag ++ c.chunk_data ++ u32BeBytes c.chunk_crc

/-- Flip bit `i` (little-endian bit index of the 32-bit value) of the
4-byte big-endian trailer CRC field of a serialized chunk. -/
def flipTrailerBit (v : List Nat) (i : Nat) : List Nat :=
  v.take (v.length - 4) ++
    u32BeBytes (u32FromBeBytes (v.drop (v.length - 4)) ^^^ 2 ^ i)

/-- The `"RuSt"` tag bytes of the test fixtures. -/
def rustTag : List Nat := [82, 117, 83, 116]

/-- The fixture payload, the bytes of
`"This is where your secret message will be!"`. -/
def secretMsg : List Nat :=
  [84, 104, 105, 115, 32, 105, 115, 32, 119, 104, 101, 114, 101, 32,
   121, 111, 117, 114, 32, 115, 101, 99, 114, 101, 116, 32, 109, 101,
   115, 115, 97, 103, 101, 32, 119, 105, 108, 108, 32, 98, 101, 33]

/-- The `testing_chunk` fixture buffer: declared length 42, tag
`"RuSt"`, the secret-message payload, trailer CRC 2882656334. -/
def fixtureBuf : List Nat :=
  u32BeBytes 42 ++ rustTag ++ secretMsg ++ u32BeBytes 2882656334

/-- A crafted buffer whose declared length field (0) disagrees with its
actual 1-byte payload, while the trailer CRC is valid for the payload
slice. -/
def mismatchBuf : List Nat :=
  u32BeBytes 0 ++ rustTag ++ [7] ++ u32BeBytes 1675461280

/-- A 12-byte buffer whose tag bytes are all zero (rejected by the tag
validator) but whose trailer CRC is the correct checksum of the tag
bytes and the empty payload. -/
def invalidTagBuf : List Nat :=
  [0, 0, 0, 0, 0, 0, 0, 0] ++ u32BeBytes 558161692

lemma crcBit_lt {c : Nat} (h : c < 2 ^ 32) : crcBit c < 2 ^ 32 := by
  unfold crcBit
  have hp : crcPoly < 2 ^ 32 := by norm_num [crcPoly]
  have hd : c / 2 < 2 ^ 32 := lt_of_le_of_lt (Nat.div_le_self c 2) h
  split
  · exact Nat.xor_lt_two_pow hd hp
  · exact hd

lemma crcIter_lt (k : Nat) {c : Nat} (h : c < 2 ^ 32) : crcBit^[k] c < 2 ^ 32 := by
  induction k generalizing c with
  | zero => simpa using h
  | succ n ih =>
      rw [Function.iterate_succ_apply]
      exact ih (crcBit_lt h)

lemma crcByte_lt {c b : Nat} (hc : c < 2 ^ 32) (hb : b < 2 ^ 32) :
    crcByte c b < 2 ^ 32 :=
  crcIter_lt 8 (Nat.xor_lt_two_pow hc hb)

lemma crc_foldl_lt (data : List Nat) {c : Nat} (hc : c < 2 ^ 32)
    (h : ∀ b ∈ data, b < 256) : data.foldl crcByte c < 2 ^ 32 := by
  induction data generalizing c with
  | nil => simpa using hc
  | cons b rest ih =>
      have hb : b < 2 ^ 32 := by
        have := h b (List.mem_cons_self b rest)
        omega
      simp only [List.foldl_cons]
      exact ih (crcByte_lt hc hb) (fun x hx => h x (List.mem_cons_of_mem b hx))

lemma crc32_lt (data : List Nat) (h : ∀ b ∈ data, b < 256) :
    crc32 data < 2 ^ 32 := by
  unfold crc32
  exact Nat.xor_lt_two_pow (crc_foldl_lt data (by norm_num) h) (by norm_num)

lemma length_u32BeBytes (n : Nat) : (u32BeBytes n).length = 4 := rfl

lemma u32FromBeBytes_u32BeBytes (n : Nat) :
    u32FromBeBytes (u32BeBytes n) = n % 4294967296 := by
  simp only [u32FromBeBytes, u32BeBytes, List.foldl]
  omega

lemma u32FromBeBytes_u32BeBytes_of_lt {n : Nat} (h : n < 2 ^ 32) :
    u32FromBeBytes (u32BeBytes n) = n := by
  rw [u32FromBeBytes_u32BeBytes]
  omega

/-- On buffers of at least 12 bytes, `parse` reduces to the CRC
comparison: the integrity check is the only remaining branch. -/
lemma parse_of_ge12 (v : List Nat) (h : 12 ≤ v.length) :
    parse v =
      if crc32 ((v.drop 4).take 4 ++ (v.drop 8).take (v.length - 12)) =
          u32FromBeBytes ((v.drop (v.length - 4)).take 4) then
        Except.ok
          { chunk_crc := crc32 ((v.drop 4).take 4 ++ (v.drop 8).take (v.length - 12))
            chunk_type := ChunkType.mk ((v.drop 4).take 4)
            chunk_data := (v.drop 8).take (v.length - 12)
            length := u32FromBeBytes (v.take 4) }
      else Except.error ParseError.crcMismatch := by
  have h1 : (v.take 4).length = 4 := by
    simp only [List.length_take]
    omega
  have h2 : ((v.drop 4).take 4).length = 4 := by
    simp only [List.length_take, List.length_drop]
    omega
  have h3 : ¬ v.length < 12 := by omega
  have h4 : ((v.drop (v.length - 4)).take 4).length = 4 := by
    simp only [List.length_take, List.length_drop]
    omega
  unfold parse
  simp only [h1, h2, h3, h4, ne_eq, not_true_eq_false, if_false, if_true,
    not_false_eq_true, ite_false, ite_true]

/-- A successful `parse` needs at least 12 input bytes. -/
lemma parse_ok_length {v : List Nat} {c : Chunk} (h : parse v = Except.ok c) :
    12 ≤ v.length := by
  by_contra hlt
  push_neg at hlt
  unfold parse at h
  by_cases h1 : (v.take 4).length ≠ 4
  · rw [if_pos h1] at h
    cases h
  · rw [if_neg h1] at h
    by_cases h2 : ((v.drop 4).take 4).length ≠ 4
    · rw [if_pos h2] at h
      cases h
    · rw [if_neg h2] at h
      rw [if_pos hlt] at h
      cases h

/-- Behaviour of `parse` on an explicit 4 + 4 + N + 4 layout. -/
lemma parse_layout (a b cc d : List Nat) (ha : a.length = 4) (hb : b.length = 4)
    (hd : d.length = 4) :
    parse (a ++ b ++ cc ++ d) =
      if crc32 (b ++ cc) = u32FromBeBytes d then
        Except.ok
          { chunk_crc := crc32 (b ++ cc)
            chunk_type := ChunkType.mk b
            chunk_data := cc
            length := u32FromBeBytes a }
      else Except.error ParseError.crcMismatch := by
  have hlen : (a ++ b ++ cc ++ d).length = cc.length + 12 := by
    simp only [List.length_append, ha, hb, hd]
    omega
  have h12 : 12 ≤ (a ++ b ++ cc ++ d).length := by omega
  have hv : a ++ b ++ cc ++ d = a ++ (b ++ (cc ++ d)) := by
    simp only [List.append_assoc]
  have e1 : (a ++ b ++ cc ++ d).take 4 = a := by
    rw [hv]
    exact List.take_left' ha
  have ed4 : (a ++ b ++ cc ++ d).drop 4 = b ++ (cc ++ d) := by
    rw [hv]
    exact List.drop_left' ha
  have e2 : ((a ++ b ++ cc ++ d).drop 4).take 4 = b := by
    rw [ed4]
    exact List.take_left' hb
  have ed8 : (a ++ b ++ cc ++ d).drop 8 = cc ++ d := by
    have h44 : ((a ++ b ++ cc ++ d).drop 4).drop 4 = (a ++ b ++ cc ++ d).drop 8 := by
      rw [List.drop_drop]
    rw [← h44, ed4]
    exact List.drop_left' hb
  have e3 : ((a ++ b ++ cc ++ d).drop 8).take ((a ++ b ++ cc ++ d).length - 12) = cc := by
    rw [ed8, hlen]
    have hc12 : cc.length + 12 - 12 = cc.length := by omega
    rw [hc12]
    exact List.take_left cc d
  have e4 : ((a ++ b ++ cc ++ d).drop ((a ++ b ++ cc ++ d).length - 4)).take 4 = d := by
    rw [hlen]
    have h8 : cc.length + 12 - 4 = (a ++ b ++ cc).length := by
      simp only [List.length_append, ha, hb]
      omega
    rw [h8, List.drop_left]
    exact List.take_of_length_le hd.le
  rw [parse_of_ge12 _ h12, e1, e2, e3, e4]

/-- Flipping the trailer field of an explicit 4 + 4 + N + 4 layout
rewrites exactly the last 4 bytes. -/
lemma flipTrailerBit_layout (a b cc : List Nat) (n i : Nat) (ha : a.length = 4)
    (hb : b.length = 4) (hn : n < 2 ^ 32) :
    flipTrailerBit (a ++ b ++ cc ++ u32BeBytes n) i =
      a ++ b ++ cc ++ u32BeBytes (n ^^^ 2 ^ i) := by
  unfold flipTrailerBit
  have hlen : (a ++ b ++ cc ++ u32BeBytes n).length = cc.length + 12 := by
    simp only [List.length_append, ha, hb, length_u32BeBytes]
    omega
  have h8 : cc.length + 12 - 4 = (a ++ b ++ cc).length := by
    simp only [List.length_append, ha, hb]
    omega
  have htake :
      (a ++ b ++ cc ++ u32BeBytes n).take ((a ++ b ++ cc ++ u32BeBytes n).length - 4) =
        a ++ b ++ cc := by
    rw [hlen, h8]
    exact List.take_left (a ++ b ++ cc) (u32BeBytes n)
  have hdrop :
      (a ++ b ++ cc ++ u32BeBytes n).drop ((a ++ b ++ cc ++ u32BeBytes n).length - 4) =
        u32BeBytes n := by
    rw [hlen, h8]
    exact List.drop_left (a ++ b ++ cc) (u32BeBytes n)
  rw [htake, hdrop, u32FromBeBytes_u32BeBytes_of_lt hn]

lemma crc32_append_lt {t : ChunkType} {data : List Nat}
    (htb : ∀ b ∈ t.tag, b < 256) (hdb : ∀ b ∈ data, b < 256) :
    crc32 (t.tag ++ data) < 2 ^ 32 := by
  apply crc32_lt
  intro b hb
  rcases List.mem_append.mp hb with h | h
  · exact htb b h
  · exact hdb b h

/-- C1: round-trip — serializing the chunk built by `Chunk::new` into
the 12+N-byte layout and parsing it back succeeds and reproduces the
constructed chunk, all four fields included, for every 4-byte tag and
every payload byte sequence. -/
theorem roundTrip_parse_serialize_new (t : ChunkType) (data : List Nat)
    (ht : t.tag.length = 4) (htb : ∀ b ∈ t.tag, b < 256)
    (hdb : ∀ b ∈ data, b < 256) :
    parse (Chunk.new t data).serialize = Except.ok (Chunk.new t data) := by
  have hcrc : crc32 (t.tag ++ data) < 2 ^ 32 := crc32_append_lt htb hdb
  have hser : (Chunk.new t data).serialize =
      u32BeBytes (data.length % 4294967296) ++ t.tag ++ data ++
        u32BeBytes (crc32 (t.tag ++ data)) := rfl
  rw [hser, parse_layout _ _ _ _ (length_u32BeBytes _) ht (length_u32BeBytes _),
    u32FromBeBytes_u32BeBytes_of_lt hcrc, if_pos rfl, u32FromBeBytes_u32BeBytes]
  have hm : data.length % 4294967296 % 4294967296 = data.length % 4294967296 := by
    omega
  rw [hm]
  cases t with
  | mk tag => rfl

/-- Witness for C1 at the `"RuSt"` tag with the empty payload: the
empty-payload chunk has length 0 and parses back to itself. -/
theorem roundTrip_parse_serialize_new_witness :
    parse (Chunk.new (ChunkType.mk rustTag) []).serialize =
      Except.ok (Chunk.new (ChunkType.mk rustTag) []) ∧
    (Chunk.new (ChunkType.mk rustTag) []).length = 0 :=
  ⟨roundTrip_parse_serialize_new (ChunkType.mk rustTag) [] (by decide) (by decide)
      (by decide),
    by decide⟩

/-- C2: every Chunk handed back by the core — from `Chunk::new` or from
a successful `Chunk::try_from` — satisfies
`chunk_crc = CRC32(chunk_type bytes ++ chunk_data bytes)`. -/
theorem crc_invariant_new_and_parse :
    (∀ (t : ChunkType) (data : List Nat),
        (Chunk.new t data).chunk_crc =
          crc32 ((Chunk.new t data).chunk_type.tag ++ (Chunk.new t data).chunk_data)) ∧
    (∀ (v : List Nat) (c : Chunk), parse v = Except.ok c →
        c.chunk_crc = crc32 (c.chunk_type.tag ++ c.chunk_data)) := by
  constructor
  · intro t data
    rfl
  · intro v c h
    have h12 := parse_ok_length h
    rw [parse_of_ge12 v h12] at h
    split at h
    · cases h
      rfl
    · cases h

/-- Witness for C2: the chunk decoded from the `testing_chunk` fixture
buffer satisfies the CRC invariant. -/
theorem crc_invariant_new_and_parse_witness :
    (Chunk.mk 2882656334 (ChunkType.mk rustTag) secretMsg 42).chunk_crc =
      crc32 ((Chunk.mk 2882656334 (ChunkType.mk rustTag) secretMsg 42).chunk_type.tag ++
        (Chunk.mk 2882656334 (ChunkType.mk rustTag) secretMsg 42).chunk_data) :=
  crc_invariant_new_and_parse.2 fixtureBuf
    (Chunk.mk 2882656334 (ChunkType.mk rustTag) secretMsg 42) (by rfl)

/-- C3: evaluation of the decode path on short buffers.  Buffers
shorter than 8 bytes do fail structurally, but an 8-byte buffer reaches
the unchecked `value.len() - 12` and dies on the `usize` subtraction
underflow instead of failing with a structural error — the code, not
the claim, is at fault here. -/
theorem parse_short_buffer_underflow :
    parse [] = Except.error ParseError.lengthErr ∧
    parse [0, 0, 0, 0, 0] = Except.error ParseError.chunkTypeErr ∧
    parse [0, 0, 0, 0, 0, 0, 0, 0] = Except.error ParseError.panicSubUnderflow :=
  ⟨rfl, rfl, rfl⟩

/-- C4: for buffers of at least 12 bytes the recomputed-CRC-versus-
trailer comparison alone decides `parse`: a mismatch yields the
integrity error and no Chunk, a match yields the Chunk populated with
the declared length, parsed type, payload slice and verified CRC. -/
theorem parse_crc_decides (v : List Nat) (h12 : 12 ≤ v.length) :
    (crc32 ((v.drop 4).take 4 ++ (v.drop 8).take (v.length - 12)) ≠
        u32FromBeBytes ((v.drop (v.length - 4)).take 4) →
      parse v = Except.error ParseError.crcMismatch) ∧
    (crc32 ((v.drop 4).take 4 ++ (v.drop 8).take (v.length - 12)) =
        u32FromBeBytes ((v.drop (v.length - 4)).take 4) →
      parse v = Except.ok
        { chunk_crc := crc32 ((v.drop 4).take 4 ++ (v.drop 8).take (v.length - 12))
          chunk_type := ChunkType.mk ((v.drop 4).take 4)
          chunk_data := (v.drop 8).take (v.length - 12)
          length := u32FromBeBytes (v.take 4) }) := by
  constructor
  · intro hne
    rw [parse_of_ge12 v h12, if_neg hne]
  · intro heq
    rw [parse_of_ge12 v h12, if_pos heq]

/-- A fixture buffer with the trailer CRC off by one, as in
`test_invalid_chunk_from_bytes`. -/
def badCrcBuf : List Nat :=
  u32BeBytes 42 ++ rustTag ++ secretMsg ++ u32BeBytes 2882656333

/-- Witness for C4: the off-by-one trailer CRC of
`test_invalid_chunk_from_bytes` makes `parse` fail with the integrity
error. -/
theorem parse_crc_decides_witness :
    parse badCrcBuf = Except.error ParseError.crcMismatch :=
  (parse_crc_decides badCrcBuf (by decide)).1 (by decide)

/-- C5: `Chunk::new` is total (a Lean `def`, no failure path) and
correct — the stored CRC is the checksum of tag bytes ++ data and the
stored length is the byte-length of the data. -/
theorem new_total_correct (t : ChunkType) (data : List Nat)
    (h : data.length < 4294967296) :
    (Chunk.new t data).chunk_crc = crc32 (t.bytes ++ data) ∧
    (Chunk.new t data).length = data.length := by
  refine ⟨rfl, ?_⟩
  simp only [Chunk.new]
  omega

/-- Witness for C5 at the `test_new_chunk` fixture: length 42 and CRC
2882656334. -/
theorem new_total_correct_witness :
    ((Chunk.new (ChunkType.mk rustTag) secretMsg).chunk_crc =
        crc32 ((ChunkType.mk rustTag).bytes ++ secretMsg) ∧
      (Chunk.new (ChunkType.mk rustTag) secretMsg).length = secretMsg.length) ∧
    (Chunk.new (ChunkType.mk rustTag) secretMsg).chunk_crc = 2882656334 ∧
    (Chunk.new (ChunkType.mk rustTag) secretMsg).length = 42 :=
  ⟨new_total_correct (ChunkType.mk rustTag) secretMsg (by decide), by decide, by decide⟩

/-- C6: every buffer accepted by `parse` stores as payload exactly
bytes 8 to len − 4 (total size minus the fixed 12-byte overhead, not
bounded by the declared length field) and stores the declared length
from bytes 0..4 without cross-checking it against the payload size. -/
theorem parse_payload_slice_and_declared_length (v : List Nat) (c : Chunk)
    (h : parse v = Except.ok c) :
    c.chunk_data = (v.drop 8).take (v.length - 12) ∧
    c.length = u32FromBeBytes (v.take 4) := by
  have h12 := parse_ok_length h
  rw [parse_of_ge12 v h12] at h
  split at h
  · cases h
    exact ⟨rfl, rfl⟩
  · cases h

/-- Witness for C6: the crafted buffer with declared length 0 but a
1-byte payload is accepted (its CRC validates), and the stored fields
are the un-cross-checked declared length and the whole payload
slice. -/
theorem parse_payload_slice_and_declared_length_witness :
    (Chunk.mk 1675461280 (ChunkType.mk rustTag) [7] 0).chunk_data =
      (mismatchBuf.drop 8).take (mismatchBuf.length - 12) ∧
    (Chunk.mk 1675461280 (ChunkType.mk rustTag) [7] 0).length =
      u32FromBeBytes (mismatchBuf.take 4) :=
  parse_payload_slice_and_declared_length mismatchBuf
    (Chunk.mk 1675461280 (ChunkType.mk rustTag) [7] 0) (by rfl)

/-- C7: flipping any one of the 32 bits of the trailer CRC field of a
valid serialized chunk makes `parse` fail with the integrity error. -/
theorem tamper_trailer_bit_flip (t : ChunkType) (data : List Nat) (i : Nat)
    (ht : t.tag.length = 4) (htb : ∀ b ∈ t.tag, b < 256)
    (hdb : ∀ b ∈ data, b < 256) (hi : i < 32) :
    parse (flipTrailerBit (Chunk.new t data).serialize i) =
      Except.error ParseError.crcMismatch := by
  have hcrc : crc32 (t.tag ++ data) < 2 ^ 32 := crc32_append_lt htb hdb
  have hpow : 2 ^ i < 2 ^ 32 := Nat.pow_lt_pow_right (by norm_num) hi
  have hxor_lt : crc32 (t.tag ++ data) ^^^ 2 ^ i < 2 ^ 32 :=
    Nat.xor_lt_two_pow hcrc hpow
  have hser : (Chunk.new t data).serialize =
      u32BeBytes (data.length % 4294967296) ++ t.tag ++ data ++
        u32BeBytes (crc32 (t.tag ++ data)) := rfl
  rw [hser, flipTrailerBit_layout _ _ _ _ i (length_u32BeBytes _) ht hcrc,
    parse_layout _ _ _ _ (length_u32BeBytes _) ht (length_u32BeBytes _),
    u32FromBeBytes_u32BeBytes_of_lt hxor_lt]
  have hne : crc32 (t.tag ++ data) ≠ crc32 (t.tag ++ data) ^^^ 2 ^ i := by
    intro heq
    have h2 : crc32 (t.tag ++ data) ^^^ crc32 (t.tag ++ data) =
        crc32 (t.tag ++ data) ^^^ (crc32 (t.tag ++ data) ^^^ 2 ^ i) :=
      congrArg (fun x => crc32 (t.tag ++ data) ^^^ x) heq
    rw [Nat.xor_self, ← Nat.xor_assoc, Nat.xor_self, Nat.zero_xor] at h2
    have hp : 0 < 2 ^ i := pow_pos (by norm_num) i
    omega
  rw [if_neg hne]

/-- Witness for C7: flipping bit 0 of the trailer of the serialized
empty-payload `"RuSt"` chunk is rejected. -/
theorem tamper_trailer_bit_flip_witness :
    parse (flipTrailerBit (Chunk.new (ChunkType.mk rustTag) []).serialize 0) =
      Except.error ParseError.crcMismatch :=
  tamper_trailer_bit_flip (ChunkType.mk rustTag) [] 0 (by decide) (by decide)
    (by decide) (by decide)

/-- C8 counterexample: the fixture payload
`"This is where your secret message will be!"` does not have 44 bytes
(it has 42), refuting the claimed inconsistency between the declared
length 42 and the payload length. -/
theorem fixture_payload_not_44 : secretMsg.length ≠ 44 := by decide

/-- C8 (amended): the fixture payload has 42 bytes, the declared
length 42 is consistent with it, the CRC over tag ++ payload is
2882656334, and the fixture buffer decodes to the matching chunk. -/
theorem fixture_consistent_42 :
    secretMsg.length = 42 ∧
    crc32 (rustTag ++ secretMsg) = 2882656334 ∧
    u32FromBeBytes (fixtureBuf.take 4) = secretMsg.length ∧
    parse fixtureBuf =
      Except.ok (Chunk.mk 2882656334 (ChunkType.mk rustTag) secretMsg 42) :=
  ⟨rfl, by rfl, by rfl, by rfl⟩

/-- C9: `data_as_string` returns the payload decoded as a string
exactly when the payload bytes are valid UTF-8, and fails with the
text-decode error otherwise; it is a pure accessor — the chunk value it
reads is untouched. -/
theorem data_as_string_utf8 (c : Chunk) :
    (validUtf8 c.chunk_data = true → c.data_as_string = Except.ok c.chunk_data) ∧
    (validUtf8 c.chunk_data = false →
      c.data_as_string = Except.error FromUtf8Error.invalid) := by
  constructor
  · intro h
    simp [Chunk.data_as_string, h]
  · intro h
    simp [Chunk.data_as_string, h]

/-- Witness for C9: the fixture chunk text-decodes to its payload,
while a chunk with the non-UTF-8 payload `[0xFF]` fails to decode. -/
theorem data_as_string_utf8_witness :
    (Chunk.mk 2882656334 (ChunkType.mk rustTag) secretMsg 42).data_as_string =
      Except.ok secretMsg ∧
    (Chunk.new (ChunkType.mk rustTag) [255]).data_as_string =
      Except.error FromUtf8Error.invalid :=
  ⟨(data_as_string_utf8 (Chunk.mk 2882656334 (ChunkType.mk rustTag) secretMsg 42)).1
      (by rfl),
    (data_as_string_utf8 (Chunk.new (ChunkType.mk rustTag) [255])).2 (by rfl)⟩

/-- C10: `parse` never fails because of the tag contents — any buffer
of at least 12 bytes whose trailer CRC matches is accepted, and the
ChunkType is built directly from the raw bytes at offsets 4..8 with no
legality validation on the decode path. -/
theorem parse_ignores_tag_legality (v : List Nat) (h12 : 12 ≤ v.length)
    (hcrc : crc32 ((v.drop 4).take 4 ++ (v.drop 8).take (v.length - 12)) =
        u32FromBeBytes ((v.drop (v.length - 4)).take 4)) :
    parse v = Except.ok
      { chunk_crc := crc32 ((v.drop 4).take 4 ++ (v.drop 8).take (v.length - 12))
        chunk_type := ChunkType.mk ((v.drop 4).take 4)
        chunk_data := (v.drop 8).take (v.length - 12)
        length := u32FromBeBytes (v.take 4) } := by
  rw [parse_of_ge12 v h12, if_pos hcrc]

/-- Witness for C10: the all-zero tag is rejected by the tag validator,
yet the buffer carrying it parses successfully because its CRC
matches. -/
theorem parse_ignores_tag_legality_witness :
    isValidTag ((invalidTagBuf.drop 4).take 4) = false ∧
    parse invalidTagBuf = Except.ok
      { chunk_crc := crc32 ((invalidTagBuf.drop 4).take 4 ++
          (invalidTagBuf.drop 8).take (invalidTagBuf.length - 12))
        chunk_type := ChunkType.mk ((invalidTagBuf.drop 4).take 4)
        chunk_data := (invalidTagBuf.drop 8).take (invalidTagBuf.length - 12)
        length := u32FromBeBytes (invalidTagBuf.take 4) } :=
  ⟨by decide, parse_ignores_tag_legality invalidTagBuf (by decide) (by decide)⟩

end Pngme
